import Mathlib

/-!
Verification of the query-safety validation and sandboxed execution layer of the
nlq-backend repository (src/services/QueryExecutionService.js and the NLQ
orchestrator's processQuery pipeline), as a shallow embedding in Lean.

JavaScript strings are modelled as Lean `String` (a list of characters); the
string operations used by the code (`toUpperCase`, `trim`, `includes`,
`startsWith`) are modelled character-wise on ASCII, which covers every input the
claims are about.  External collaborators (the postgres driver, the
sql-formatter library, the LLM/embedding provider) are modelled as explicitly
quantified oracles, mirroring the repository's treatment of them as black boxes.
-/

namespace NLQ

/-- Character-level model of `String.prototype.toUpperCase` (ASCII range). -/
def upperL (l : List Char) : List Char := l.map Char.toUpper

/-- Whitespace predicate used by the model of `String.prototype.trim`. -/
def isWs (c : Char) : Bool := c.isWhitespace

/-- Character-level model of `String.prototype.trim`: strip whitespace from both
ends. -/
def trimL (l : List Char) : List Char :=
  ((l.dropWhile isWs).reverse.dropWhile isWs).reverse

/-- Character-level model of `String.prototype.startsWith`. -/
def startsWithL : List Char → List Char → Bool
  | _, [] => true
  | [], _ :: _ => false
  | a :: s, b :: p => a == b && startsWithL s p

/-- Character-level model of `String.prototype.includes` (substring test). -/
def containsL : List Char → List Char → Bool
  | [], pat => pat.isEmpty
  | a :: t, pat => startsWithL (a :: t) pat || containsL t pat

/-- Model of `sql.toUpperCase()` on Lean strings. -/
def upStr (s : String) : String := ⟨upperL s.data⟩

/-- Model of `sql.trim()` on Lean strings. -/
def trimStr (s : String) : String := ⟨trimL s.data⟩

/-- Model of `s.includes(pat)` on Lean strings. -/
def containsStr (s pat : String) : Bool := containsL s.data pat.data

/-- Model of `s.startsWith(pat)` on Lean strings. -/
def startsWithStr (s pat : String) : Bool := startsWithL s.data pat.data

/-- The normalization `const upperSQL = sql.toUpperCase().trim();`
(QueryExecutionService.validateQuerySafety, line 80). -/
def normalizeSQL (sql : String) : String := trimStr (upStr sql)

/-- The error taxonomy of `validateQuerySafety`: one constructor per `throw`
site, in source order.  The JS code throws `Error` objects whose messages are
recovered by `errorMessage` below. -/
inductive QueryError where
  | dangerousOperation (keyword : String)
  | systemTableAccess (table : String)
  | fileSystemAccess
  | dangerousFunction (func : String)
  | notASelect
  | dangerousSubquery
deriving DecidableEq, Repr

instance {ε α : Type} [DecidableEq ε] [DecidableEq α] :
    DecidableEq (Except ε α) := fun a b =>
  match a, b with
  | .ok x, .ok y =>
    if h : x = y then isTrue (by simp [h]) else isFalse (by simp [h])
  | .ok _, .error _ => isFalse (by simp)
  | .error _, .ok _ => isFalse (by simp)
  | .error x, .error y =>
    if h : x = y then isTrue (by simp [h]) else isFalse (by simp [h])

/-- The JS `Error` message attached to each rejection. -/
def errorMessage : QueryError → String
  | .dangerousOperation k =>
      ("Dangerous operation detected: ") ++ k ++ (" statements are not allowed")
  | .systemTableAccess t =>
      ("Access to system table detected: ") ++ t ++ (" access is not allowed")
  | .fileSystemAccess => ("File system access operations are not allowed")
  | .dangerousFunction f =>
      ("Dangerous function call detected: ") ++ f ++ (" is not allowed")
  | .notASelect => ("Only SELECT queries are allowed")
  | .dangerousSubquery => ("Query contains potentially dangerous subqueries")

/-- Source list `const dangerousKeywords = [...]` (lines 83-86), in source order. -/
def dangerousKeywords : List String :=
  [("DROP"), ("DELETE"), ("UPDATE"), ("INSERT"), ("ALTER"), ("CREATE"),
   ("TRUNCATE"), ("GRANT"), ("REVOKE"), ("EXEC"), ("EXECUTE")]

/-- Source list `const systemTables = [...]` (lines 95-97).  NOTE: these patterns are
lowercase in the source, exactly as written there. -/
def systemTables : List String :=
  [("pg_"), ("information_schema"), ("sys"), ("mysql"), ("performance_schema")]

/-- Source list `const dangerousFunctions = [...]` (lines 111-113), lowercase in the
source. -/
def dangerousFunctions : List String :=
  [("pg_read_file"), ("pg_ls_dir"), ("lo_import"), ("lo_export")]

/-!  The subquery check `containsDangerousSubquery` tests the raw SQL against
three case-insensitive regexes `/SELECT.*FROM.*pg_/i`,
`/SELECT.*FROM.*information_schema/i`, `/SELECT.*FROM.*sys\./i`.  In a JS
regex, `.` does not match line terminators, so a match is a contiguous run of
characters inside a single line that contains `SELECT`, later `FROM`, and later
the catalog pattern.  We model this by splitting into lines and searching each
line (uppercased, modelling the `i` flag) for the three literals in order. -/

/-- JS line terminators (`.` in a regex matches everything else). -/
def isLineTerm (c : Char) : Bool := c == '\n' || c == '\r'

/-- Split a character list at line terminators. -/
def splitLines : List Char → List (List Char)
  | [] => [[]]
  | c :: t =>
    let r := splitLines t
    if isLineTerm c then [] :: r
    else
      match r with
      | [] => [[c]]
      | h :: rt => (c :: h) :: rt

/-- Drop everything up to and including the first occurrence of `pat`;
`none` when `pat` does not occur. -/
def dropAfterFirst : List Char → List Char → Option (List Char)
  | [], pat => if pat.isEmpty then some [] else none
  | a :: t, pat =>
    if startsWithL (a :: t) pat then some ((a :: t).drop pat.length)
    else dropAfterFirst t pat

/-- One line matches `p1.*p2.*p3` (all three literals in order). -/
def lineMatches (p1 p2 p3 : String) (line : List Char) : Bool :=
  match dropAfterFirst (upperL line) p1.data with
  | none => false
  | some r1 =>
    match dropAfterFirst r1 p2.data with
    | none => false
    | some r2 => (dropAfterFirst r2 p3.data).isSome

/-- Model of `/p1.*p2.*p3/i.test(sql)` for literal pieces `p1`, `p2`, `p3`. -/
def regexTest3 (p1 p2 p3 : String) (sql : String) : Bool :=
  (splitLines sql.data).any (lineMatches p1 p2 p3)

/-- Embedding of `containsDangerousSubquery(sql)` (lines 137-146): the three regexes run on
the raw (un-normalized) SQL. -/
def containsDangerousSubquery (sql : String) : Bool :=
  regexTest3 ("SELECT") ("FROM") ("PG_") sql ||
  regexTest3 ("SELECT") ("FROM") ("INFORMATION_SCHEMA") sql ||
  regexTest3 ("SELECT") ("FROM") ("SYS.") sql

/-- Embedding of `validateQuerySafety(sql)` (lines 79-130): the checks run in source order
against `upperSQL = sql.toUpperCase().trim()`, except the subquery regexes,
which run against the raw `sql`.  The first failing check throws. -/
def validateQuerySafety (sql : String) : Except QueryError Unit :=
  let upperSQL := normalizeSQL sql
  match dangerousKeywords.find? (fun k => containsStr upperSQL k) with
  | some k => .error (.dangerousOperation k)
  | none =>
    match systemTables.find? (fun t => containsStr upperSQL t) with
    | some t => .error (.systemTableAccess t)
    | none =>
      if containsStr upperSQL ("COPY") || containsStr upperSQL ("\\COPY") then
        .error .fileSystemAccess
      else
        match dangerousFunctions.find? (fun f => containsStr upperSQL f) with
        | some f => .error (.dangerousFunction f)
        | none =>
          if !startsWithStr upperSQL ("SELECT") then .error .notASelect
          else if containsDangerousSubquery sql then .error .dangerousSubquery
          else .ok ()

/-!  ## BoundedExecutor (`executeWithTimeout`, `formatSQL`, `executeQuery`)

The postgres pool and client are external: we model one call to
`executeWithTimeout` by the outcomes of its three awaited steps
(`pool.connect()`, `client.query('SET statement_timeout = …')`,
`client.query(finalSQL)`) plus a flag saying whether the client-side
`setTimeout` timer fires before the query settles.  In the source, the promise
settles with the timer's rejection when the timer wins, but the `async` body
keeps running; `client.release()` is executed only on the line after a
successful `client.query(finalSQL)` — the `catch` block (lines 177-180) only
clears the timer and rejects.  The `ConnLog` component records, per call,
whether a connection was checked out, whether it was released, and the SQL
texts passed to `client.query` in order. -/

/-- Constructor-time config (lines 11-16): `MAX_RESULT_ROWS` defaults to 10000,
`QUERY_TIMEOUT_MS` to 30000; `parseInt(..) || default` yields a number that is
used truthily, 0 being falsy. -/
structure ExecConfig where
  maxResultRows : Nat
  queryTimeout : Nat
  sandboxMode : Bool
deriving DecidableEq

/-- The defaults from the constructor. -/
def defaultConfig : ExecConfig :=
  { maxResultRows := 10000, queryTimeout := 30000, sandboxMode := false }

/-- A driver field descriptor (`result.fields` entries). -/
structure DBField where
  name : String
  dataTypeID : Nat
  nullable : Bool
deriving DecidableEq

/-- A result row, as a map from column name to value text (row contents are
never inspected by the code under verification). -/
abbrev Row : Type := List (String × String)

/-- A successful driver result (`result.rows`, `result.fields`,
`result.rowCount`). -/
structure DBResult where
  rows : List Row
  fields : List DBField
  rowCount : Nat
deriving DecidableEq

/-- Outcomes of the awaited driver steps of one `executeWithTimeout` call, plus
whether the client-side timer beats the query. -/
structure DriverBehavior where
  connect : Except String Unit
  setStatementTimeout : Except String Unit
  runQuery : String → Except String DBResult
  timerFiresFirst : Bool

/-- Ghost observation of one executor call: connection accounting and the SQL
texts submitted to `client.query`. -/
structure ConnLog where
  acquired : Bool
  released : Bool
  queries : List String
deriving DecidableEq

/-- The empty log (no driver interaction). -/
def emptyLog : ConnLog := { acquired := false, released := false, queries := [] }

/-- The statement `SET statement_timeout = ${this.queryTimeout}` (line 164). -/
def setTimeoutSQL (cfg : ExecConfig) : String :=
  ("SET statement_timeout = ") ++ toString cfg.queryTimeout

/-- The message `Query timeout after ${this.queryTimeout}ms` (line 157). -/
def timeoutMsg (cfg : ExecConfig) : String :=
  ("Query timeout after ") ++ toString cfg.queryTimeout ++ ("ms")

/-- LIMIT injection (lines 166-170): if `maxResultRows` is truthy and the SQL
does not contain `LIMIT` case-insensitively, append
`` ` LIMIT ${this.maxResultRows}` ``; `options` plays no role here. -/
def finalSQL (cfg : ExecConfig) (sql : String) : String :=
  if cfg.maxResultRows != 0 && !containsStr (upStr sql) ("LIMIT") then
    sql ++ (" LIMIT ") ++ toString cfg.maxResultRows
  else sql

/-- Execution options (`options` objects accepted by `executeQuery`; the routes
pass `maxResults` through here). -/
structure ExecOptions where
  maxResults : Option Nat := none
deriving DecidableEq

/-- Embedding of `executeWithTimeout(sql, options)` (lines 154-182).  Returns the settled
promise value and the connection log.  The `options` parameter is accepted and
never read, exactly as in the source.  When the timer fires first the promise
rejects with the timeout message, but the connection is released only if the
in-flight `client.query(finalSQL)` eventually succeeds, because
`client.release()` is reached only on that path. -/
def executeWithTimeout (cfg : ExecConfig) (beh : DriverBehavior) (sql : String)
    (opts : ExecOptions) : Except String DBResult × ConnLog :=
  match beh.connect with
  | .error e =>
      (if beh.timerFiresFirst then .error (timeoutMsg cfg) else .error e,
       { acquired := false, released := false, queries := [] })
  | .ok () =>
    match beh.setStatementTimeout with
    | .error e =>
        (if beh.timerFiresFirst then .error (timeoutMsg cfg) else .error e,
         { acquired := true, released := false, queries := [setTimeoutSQL cfg] })
    | .ok () =>
      let fsql := finalSQL cfg sql
      match beh.runQuery fsql with
      | .error e =>
          (if beh.timerFiresFirst then .error (timeoutMsg cfg) else .error e,
           { acquired := true, released := false,
             queries := [setTimeoutSQL cfg, fsql] })
      | .ok r =>
          (if beh.timerFiresFirst then .error (timeoutMsg cfg) else .ok r,
           { acquired := true, released := true,
             queries := [setTimeoutSQL cfg, fsql] })

/-- Embedding of `formatSQL(sql)` (lines 189-202): the external `sql-formatter` call is an
oracle `fmt` that either returns the pretty-printed text or throws; a
formatting failure is non-fatal and falls back to the original text. -/
def formatSQL (fmt : String → Except Unit String) (sql : String) : String :=
  match fmt sql with
  | .ok t => t
  | .error _ => sql

/-- A column of the normalized result (`columns` entries built on lines
44-48). -/
structure ExecColumn where
  name : String
  type : Nat
  nullable : Bool
deriving DecidableEq

/-- The result object `executeQuery` returns (lines 41-56 and 61-70).  Fields
absent from the JS failure object (`data`, `columns`, `rowCount`) are modelled
as empty, and `metadata.executed_at` (a wall-clock timestamp) is omitted. -/
structure ExecResult where
  success : Bool
  data : List Row
  columns : List ExecColumn
  rowCount : Nat
  executionTime : Nat
  error : Option String
  sql : String
  sandboxMode : Bool
deriving DecidableEq

/-- The `try` block of `executeQuery` (lines 27-56): validate, format, execute;
any thrown error propagates to the `catch`.  Returns the formatted SQL and the
driver result on success, and the connection log either way. -/
def executeQueryTry (cfg : ExecConfig) (fmt : String → Except Unit String)
    (beh : DriverBehavior) (sql : String) (opts : ExecOptions) :
    Except String (String × DBResult) × ConnLog :=
  match validateQuerySafety sql with
  | .error e => (.error (errorMessage e), emptyLog)
  | .ok () =>
    let formattedSQL := formatSQL fmt sql
    match executeWithTimeout cfg beh formattedSQL opts with
    | (.error m, log) => (.error m, log)
    | (.ok r, log) => (.ok (formattedSQL, r), log)

/-- Embedding of `executeQuery(sql, options)` (lines 24-72): the whole body is wrapped in
`try/catch`; the `catch` converts any thrown error into a result object with
`success:false`, the error message and the elapsed time.  `elapsed` is the
wall-clock measurement `Date.now() - startTime`. -/
def executeQuery (cfg : ExecConfig) (fmt : String → Except Unit String)
    (beh : DriverBehavior) (sql : String) (opts : ExecOptions)
    (elapsed : Nat) : ExecResult × ConnLog :=
  match executeQueryTry cfg fmt beh sql opts with
  | (.ok (fsql, r), log) =>
      ({ success := true
         data := r.rows
         columns := r.fields.map (fun f =>
           { name := f.name, type := f.dataTypeID, nullable := f.nullable })
         rowCount := r.rowCount
         executionTime := elapsed
         error := none
         sql := fsql
         sandboxMode := cfg.sandboxMode }, log)
  | (.error m, log) =>
      ({ success := false
         data := []
         columns := []
         rowCount := 0
         executionTime := elapsed
         error := some m
         sql := formatSQL fmt sql
         sandboxMode := cfg.sandboxMode }, log)

/-!  ## PlanEstimator (`validateSyntax`, `estimateQueryCost`) and the
orchestrator (`NLQService.processQuery`)

`validateSyntax` and `estimateQueryCost` call `executeWithTimeout` directly on
an `EXPLAIN`-prefixed statement — without any safety validation.  The JSON plan
payload travels inside driver rows, which this model keeps abstract, so the
extraction `result.rows[0]['QUERY PLAN'][0]` of `estimateQueryCost` is an
oracle `parsePlan` (it throws on an unexpected shape, like the source). -/

/-- The object `validateSyntax` returns (lines 259-275). -/
structure SyntaxCheck where
  valid : Bool
  message : String
deriving DecidableEq

/-- Embedding of `validateSyntax(sql)` (lines 259-275): run `EXPLAIN ${sql}` through
`executeWithTimeout`; an error means invalid syntax, reported as data. -/
def validateSyntax (cfg : ExecConfig) (beh : DriverBehavior) (sql : String) :
    SyntaxCheck × ConnLog :=
  match executeWithTimeout cfg beh (("EXPLAIN ") ++ sql) {} with
  | (.ok _, log) => ({ valid := true, message := ("Query syntax is valid") }, log)
  | (.error m, log) => ({ valid := false, message := m }, log)

/-- Embedding of `estimateQueryCost(sql)` (lines 231-252): run
`EXPLAIN (FORMAT JSON) ${sql}`, extract `(totalCost, estimatedRows)` from the
plan, and rethrow failures wrapped in a `Cost estimation failed:` message. -/
def estimateQueryCost (cfg : ExecConfig) (beh : DriverBehavior)
    (parsePlan : DBResult → Except String (Int × Int)) (sql : String) :
    Except String (Int × Int) × ConnLog :=
  match executeWithTimeout cfg beh (("EXPLAIN (FORMAT JSON) ") ++ sql) {} with
  | (.error m, log) => (.error (("Cost estimation failed: ") ++ m), log)
  | (.ok r, log) =>
    match parsePlan r with
    | .error m => (.error (("Cost estimation failed: ") ++ m), log)
    | .ok c => (.ok c, log)

/-- A schema-context item returned by the embedding search collaborator. -/
structure SchemaItem where
  table_name : String
  column_name : String
  data_type : String
  similarity : Int
deriving DecidableEq

/-- What `llmService.generateSQL` resolves with (confidence is kept as an
abstract integer score; its value is never inspected by the pipeline). -/
structure GenSQLResult where
  sql : String
  confidence : Int
  explanation : String
  model : String
deriving DecidableEq

/-- The external collaborators of `NLQService.processQuery`: embedding
generation, vector schema search, LLM SQL generation, and the JSON plan
extraction used by `estimateQueryCost`. -/
structure NLQOracles where
  generateEmbedding : String → Except String (List Int)
  findRelevantSchema : String → List Int → Nat → Except String (List SchemaItem)
  generateSQL : String → List SchemaItem → String → Except String GenSQLResult
  parsePlan : DBResult → Except String (Int × Int)

/-- Options of `processQuery` with their destructuring defaults (lines 226-231). -/
structure ProcessOptions where
  language : String := ("en")
  includeExplanation : Bool := true
  validateBeforeExecution : Bool := true
  maxResults : Nat := 1000
deriving DecidableEq

/-- The response envelope of `processQuery`, restricted to the fields the
claims are about (the schema-context echo, confidence and timestamps are
display-only and omitted). -/
structure ProcessOutcome where
  success : Bool
  error : Option String
  sql : Option String
  costEstimation : Option (Int × Int)
  executionResult : Option ExecResult
deriving DecidableEq

/-- Embedding of `NLQService.processQuery(query, options)` (lines 218-305 of the service
file): embedding → schema search → LLM SQL generation → **Step 4** syntax check
(`validateSyntax`, an `EXPLAIN` round trip) → **Step 5** cost estimation
(another `EXPLAIN` round trip) → **Step 6** `executeQuery` (the only step that
runs `validateQuerySafety`).  Any thrown error lands in the surrounding
`catch`, which returns `success:false` with the message.  The second component
collects every SQL text submitted to `client.query`, in order. -/
def processQuery (cfg : ExecConfig) (fmt : String → Except Unit String)
    (beh : DriverBehavior) (o : NLQOracles) (query : String)
    (po : ProcessOptions) (elapsed : Nat) : ProcessOutcome × List String :=
  match o.generateEmbedding query with
  | .error m =>
      ({ success := false, error := some m, sql := none,
         costEstimation := none, executionResult := none }, [])
  | .ok emb =>
    match o.findRelevantSchema query emb 15 with
    | .error m =>
        ({ success := false, error := some m, sql := none,
           costEstimation := none, executionResult := none }, [])
    | .ok ctx =>
      match o.generateSQL query ctx po.language with
      | .error m =>
          ({ success := false, error := some m, sql := none,
             costEstimation := none, executionResult := none }, [])
      | .ok sqlResult =>
        match validateSyntax cfg beh sqlResult.sql with
        | (syn, log1) =>
          if !syn.valid then
            ({ success := false,
               error := some ("Generated SQL has syntax errors"), sql := none,
               costEstimation := none, executionResult := none }, log1.queries)
          else
            match estimateQueryCost cfg beh o.parsePlan sqlResult.sql with
            | (.error m, log2) =>
                ({ success := false, error := some m, sql := none,
                   costEstimation := none, executionResult := none },
                 log1.queries ++ log2.queries)
            | (.ok cost, log2) =>
              if po.validateBeforeExecution then
                match executeQuery cfg fmt beh sqlResult.sql
                    { maxResults := some po.maxResults } elapsed with
                | (er, log3) =>
                    ({ success := true, error := none, sql := some sqlResult.sql,
                       costEstimation := some cost, executionResult := some er },
                     log1.queries ++ log2.queries ++ log3.queries)
              else
                ({ success := true, error := none, sql := some sqlResult.sql,
                   costEstimation := some cost, executionResult := none },
                 log1.queries ++ log2.queries)

/-!  ## Concrete fixtures used to evaluate the embedding at specific inputs -/

/-- A driver whose three steps all succeed (empty result set). -/
def okDriver : DriverBehavior :=
  { connect := .ok ()
    setStatementTimeout := .ok ()
    runQuery := fun _ => .ok { rows := [], fields := [], rowCount := 0 }
    timerFiresFirst := false }

/-- A driver whose final `client.query` rejects, e.g. because the table is
missing — the scenario of the repository's own test
`should handle query execution errors`. -/
def failingDriver : DriverBehavior :=
  { connect := .ok ()
    setStatementTimeout := .ok ()
    runQuery := fun _ => .error ("Table does not exist")
    timerFiresFirst := false }

/-- A formatter oracle that always throws, so `formatSQL` falls back to the
original text. -/
def failFormatter : String → Except Unit String := fun _ => .error ()

/-- Collaborator oracles for a pipeline run in which the LLM produces the SQL
`DELETE FROM customers` for the user's question. -/
def demoOracles : NLQOracles :=
  { generateEmbedding := fun _ => .ok []
    findRelevantSchema := fun _ _ _ => .ok []
    generateSQL := fun _ _ _ =>
      .ok { sql := ("DELETE FROM customers"), confidence := 0,
            explanation := (""), model := ("") }
    parsePlan := fun _ => .ok (0, 0) }

/-!  ## Helper lemmas about the string model -/

/-- Characterization: `startsWithL` recognizes exactly the prefixes. -/
theorem startsWithL_spec (k : List Char) : ∀ l : List Char,
    startsWithL l k = true ↔ ∃ u, l = k ++ u := by
  induction k with
  | nil =>
    intro l
    simp [startsWithL]
  | cons b p ih =>
    intro l
    cases l with
    | nil => simp [startsWithL]
    | cons a s => simp [startsWithL, ih s, List.cons_eq_cons, and_assoc]

/-- Characterization: `containsL` recognizes exactly the (contiguous) substrings. -/
theorem containsL_spec (k : List Char) : ∀ l : List Char,
    containsL l k = true ↔ ∃ u v, l = u ++ k ++ v := by
  intro l
  induction l with
  | nil =>
    constructor
    · intro h
      cases k with
      | nil => exact ⟨[], [], rfl⟩
      | cons b p => simp [containsL, List.isEmpty] at h
    · rintro ⟨u, v, h⟩
      rcases List.append_eq_nil.mp h.symm with ⟨h1, h2⟩
      rcases List.append_eq_nil.mp h1 with ⟨rfl, rfl⟩
      simp [containsL, List.isEmpty]
  | cons a t ih =>
    constructor
    · intro h
      rcases Bool.or_eq_true_iff.mp h with hs | hc
      · obtain ⟨u, hu⟩ := (startsWithL_spec k (a :: t)).mp hs
        exact ⟨[], u, by simpa using hu⟩
      · obtain ⟨u, v, huv⟩ := ih.mp hc
        exact ⟨a :: u, v, by simp [huv]⟩
    · rintro ⟨u, v, huv⟩
      cases u with
      | nil =>
        have : startsWithL (a :: t) k = true :=
          (startsWithL_spec k (a :: t)).mpr ⟨v, by simpa using huv⟩
        simp [containsL, this]
      | cons c u =>
        have hct : t = u ++ k ++ v := by
          simpa using congrArg List.tail huv
        have : containsL t k = true := ih.mpr ⟨u, v, hct⟩
        simp [containsL, this]

/-- A substring of a string that has none of the dropped characters survives
`dropWhile`. -/
theorem containsL_dropLeading (p : Char → Bool) (k : List Char)
    (hk : ∀ c ∈ k, p c = false) (hne : k ≠ []) : ∀ l : List Char,
    containsL l k = true → containsL (l.dropWhile p) k = true := by
  intro l
  induction l with
  | nil =>
    intro h
    simpa using h
  | cons a t ih =>
    intro h
    by_cases hpa : p a = true
    · rw [List.dropWhile_cons_of_pos hpa]
      apply ih
      rcases Bool.or_eq_true_iff.mp h with hs | hc
      · exfalso
        obtain ⟨u, hu⟩ := (startsWithL_spec k (a :: t)).mp hs
        cases k with
        | nil => exact hne rfl
        | cons b q =>
          have hb : b = a := by simpa using congrArg (List.head? ·) hu.symm
          have := hk b (by simp)
          rw [hb, hpa] at this
          cases this
      · exact hc
    · rw [List.dropWhile_cons_of_neg hpa]
      exact h

/-- Substring containment transfers to the reversed strings. -/
theorem containsL_rev (k l : List Char) (h : containsL l k = true) :
    containsL l.reverse k.reverse = true := by
  obtain ⟨u, v, huv⟩ := (containsL_spec k l).mp h
  refine (containsL_spec k.reverse l.reverse).mpr ⟨v.reverse, u.reverse, ?_⟩
  subst huv
  simp

/-- A whitespace-free substring survives `trim`. -/
theorem containsL_trimL (k : List Char) (hne : k ≠ [])
    (hws : ∀ c ∈ k, isWs c = false) (l : List Char)
    (h : containsL l k = true) : containsL (trimL l) k = true := by
  have h1 : containsL (l.dropWhile isWs) k = true :=
    containsL_dropLeading isWs k hws hne l h
  have h2 : containsL (l.dropWhile isWs).reverse k.reverse = true :=
    containsL_rev k _ h1
  have hne' : k.reverse ≠ [] := by simpa using hne
  have hws' : ∀ c ∈ k.reverse, isWs c = false := by
    intro c hc
    exact hws c (List.mem_reverse.mp hc)
  have h3 : containsL ((l.dropWhile isWs).reverse.dropWhile isWs) k.reverse = true :=
    containsL_dropLeading isWs k.reverse hws' hne' _ h2
  have h4 := containsL_rev k.reverse _ h3
  simpa [trimL] using h4

/-- Containment of `c :: k` implies containment of `k`. -/
theorem containsL_of_cons (l : List Char) (c : Char) (k : List Char)
    (h : containsL l (c :: k) = true) : containsL l k = true := by
  obtain ⟨u, v, huv⟩ := (containsL_spec (c :: k) l).mp h
  exact (containsL_spec k l).mpr ⟨u ++ [c], v, by simp [huv]⟩

/-- If some member of a list satisfies the predicate, `find?` yields a
satisfier. -/
theorem find?_some_of_mem {α : Type} (p : α → Bool) (l : List α) (x : α)
    (hx : x ∈ l) (hpx : p x = true) :
    ∃ y, l.find? p = some y ∧ p y = true := by
  induction l with
  | nil => cases hx
  | cons a t ih =>
    by_cases hpa : p a = true
    · exact ⟨a, List.find?_cons_of_pos t hpa, hpa⟩
    · rcases List.mem_cons.mp hx with rfl | hx'
      · exact absurd hpx hpa
      · obtain ⟨y, hy, hpy⟩ := ih hx'
        refine ⟨y, ?_, hpy⟩
        rw [List.find?_cons_of_neg t hpa]
        exact hy

/-- The SQL texts one `executeWithTimeout` call submits to `client.query`:
nothing, the `SET statement_timeout` alone, or the `SET` followed by the
LIMIT-adjusted statement. -/
theorem executeWithTimeout_queries (cfg : ExecConfig) (beh : DriverBehavior)
    (sql : String) (opts : ExecOptions) :
    (executeWithTimeout cfg beh sql opts).2.queries = [] ∨
    (executeWithTimeout cfg beh sql opts).2.queries = [setTimeoutSQL cfg] ∨
    (executeWithTimeout cfg beh sql opts).2.queries
      = [setTimeoutSQL cfg, finalSQL cfg sql] := by
  unfold executeWithTimeout
  cases hc : beh.connect with
  | error e => simp
  | ok u =>
    cases u
    cases hs : beh.setStatementTimeout with
    | error e => simp
    | ok u =>
      cases u
      cases hr : beh.runQuery (finalSQL cfg sql) with
      | error e => simp [hr]
      | ok r => simp [hr]

/-- The connection log of `executeQuery` is either empty (the validator threw
before any driver interaction) or exactly the log of the single
`executeWithTimeout` call on the formatted SQL. -/
theorem executeQuery_log (cfg : ExecConfig) (fmt : String → Except Unit String)
    (beh : DriverBehavior) (sql : String) (opts : ExecOptions) (elapsed : Nat) :
    (executeQuery cfg fmt beh sql opts elapsed).2 = emptyLog ∨
    (executeQuery cfg fmt beh sql opts elapsed).2
      = (executeWithTimeout cfg beh (formatSQL fmt sql) opts).2 := by
  unfold executeQuery executeQueryTry
  cases hv : validateQuerySafety sql with
  | error e => simp
  | ok u =>
    cases u
    rcases hw : executeWithTimeout cfg beh (formatSQL fmt sql) opts with ⟨res, log⟩
    cases res with
    | error m => simp [hw]
    | ok r => simp [hw]

/-- Every dangerous keyword is nonempty and whitespace-free, so its occurrence
as a substring survives the validator's `trim`. -/
theorem dangerousKeywords_wsFree :
    ∀ k ∈ dangerousKeywords, k.data ≠ [] ∧ ∀ c ∈ k.data, isWs c = false := by
  decide

/-!  ## The claims -/

/-- C1: the spec says `validate` rejects SQL referencing `pg_read_file`,
`pg_ls_dir`, `lo_import` or `lo_export` with `DangerousFunction`.  The code
compares the lowercase patterns against the uppercased SQL, so the check can
never fire: all three inputs of the repository's own test
`should reject dangerous function calls` are accepted by `validateQuerySafety`
(the third reaches the subquery regex only because of its `FROM`-less shape;
none is rejected). -/
theorem c1_dangerous_function_check_dead :
    validateQuerySafety ("SELECT pg_read_file(\x27/etc/passwd\x27)") = .ok ()
    ∧ validateQuerySafety ("SELECT pg_ls_dir(\x27/\x27)") = .ok ()
    ∧ validateQuerySafety ("SELECT lo_import(\x27/etc/passwd\x27)") = .ok () := by
  decide

/-- C2: the spec says any SQL containing `pg_`, `information_schema` or `sys.`
(case-insensitively) is rejected with `SystemTableAccess`.  The system-table
check compares lowercase patterns against the uppercased SQL and can never
fire: `SELECT pg_backend_pid()` is accepted outright, and the claim's own
example `SELECT * FROM pg_user` is only caught later by the subquery regex,
surfacing `DangerousSubquery`, not `SystemTableAccess`. -/
theorem c2_system_table_check_dead :
    validateQuerySafety ("SELECT pg_backend_pid()") = .ok ()
    ∧ validateQuerySafety ("SELECT * FROM pg_user") = .error .dangerousSubquery := by
  decide

/-- C3 (counterexample): in `processQuery`, the syntax check (Step 4) and the
cost estimation (Step 5) each send the LLM-generated SQL to the database engine
wrapped in `EXPLAIN` *before* the safety validator ever runs (Step 6): for
generated SQL `DELETE FROM customers`, which the validator rejects, the
pipeline's query trace still contains an `EXPLAIN` of that statement. -/
theorem c3_counterexample :
    validateQuerySafety ("DELETE FROM customers")
      = .error (.dangerousOperation ("DELETE"))
    ∧ ("EXPLAIN DELETE FROM customers LIMIT 10000") ∈
        (processQuery defaultConfig failFormatter okDriver demoOracles
          ("delete all customers") {} 5).2 := by
  decide

/-- C3 (amended): within `executeQuery` the safety check strictly precedes
execution — when the validator rejects, no SQL at all is submitted to the
driver by `executeQuery`, no connection is acquired, and the failure is
reported as data. -/
theorem c3_amended_thm (cfg : ExecConfig) (fmt : String → Except Unit String)
    (beh : DriverBehavior) (sql : String) (opts : ExecOptions) (elapsed : Nat)
    (e : QueryError) (h : validateQuerySafety sql = .error e) :
    (executeQuery cfg fmt beh sql opts elapsed).2 = emptyLog
    ∧ (executeQuery cfg fmt beh sql opts elapsed).1.success = false
    ∧ (executeQuery cfg fmt beh sql opts elapsed).1.error
        = some (errorMessage e) := by
  simp [executeQuery, executeQueryTry, h]

/-- Witness for the amended C3 at the spec's own scenario. -/
theorem c3_amended_witness :
    (executeQuery defaultConfig failFormatter okDriver
        ("DELETE FROM customers") {} 5).2 = emptyLog
    ∧ (executeQuery defaultConfig failFormatter okDriver
        ("DELETE FROM customers") {} 5).1.success = false
    ∧ (executeQuery defaultConfig failFormatter okDriver
        ("DELETE FROM customers") {} 5).1.error
        = some (errorMessage (.dangerousOperation ("DELETE"))) :=
  c3_amended_thm defaultConfig failFormatter okDriver ("DELETE FROM customers")
    {} 5 (.dangerousOperation ("DELETE")) (by decide)

/-- C4: the spec says the connection is released on every exit path.  On the
driver-error path (`client.query` rejects, e.g. `Table does not exist` — the
scenario of the repository's own test `should handle query execution errors`),
the `catch` block only clears the timer and rejects: the checked-out connection
is never released. -/
theorem c4_connection_leak :
    (executeWithTimeout defaultConfig failingDriver
        ("SELECT * FROM nonexistent_table") {}).1
      = .error ("Table does not exist")
    ∧ (executeWithTimeout defaultConfig failingDriver
        ("SELECT * FROM nonexistent_table") {}).2.acquired = true
    ∧ (executeWithTimeout defaultConfig failingDriver
        ("SELECT * FROM nonexistent_table") {}).2.released = false := by
  decide

/-- C5: the spec (and the repository's test `should respect maxResults
option`) say `execute(sql, {maxResults: 50})` applies `LIMIT 50`.  The code
appends `LIMIT ${this.maxResultRows}` (the global default, 10000) and never
reads `options.maxResults`: the executed statement carries `LIMIT 10000`, and
`executeWithTimeout` is insensitive to its `options` argument altogether. -/
theorem c5_max_results_ignored :
    (executeQuery defaultConfig failFormatter okDriver
        ("SELECT * FROM customers") { maxResults := some 50 } 5).2.queries
      = [setTimeoutSQL defaultConfig, ("SELECT * FROM customers LIMIT 10000")]
    ∧ containsStr ("SELECT * FROM customers LIMIT 10000") ("LIMIT 50") = false
    ∧ ∀ (cfg : ExecConfig) (beh : DriverBehavior) (sql : String)
        (o1 o2 : ExecOptions),
        executeWithTimeout cfg beh sql o1 = executeWithTimeout cfg beh sql o2 := by
  refine ⟨by decide, by decide, ?_⟩
  intro cfg beh sql o1 o2
  rfl

/-- C6 (counterexample): `DROP TABLE customers` does not start with `SELECT`,
yet `validate` returns `DangerousOperation`, not `NotASelect` — the keyword
check runs first, so the universally quantified claim fails. -/
theorem c6_counterexample :
    startsWithStr (normalizeSQL ("DROP TABLE customers")) ("SELECT") = false
    ∧ validateQuerySafety ("DROP TABLE customers")
        = .error (.dangerousOperation ("DROP"))
    ∧ validateQuerySafety ("DROP TABLE customers") ≠ .error .notASelect := by
  decide

/-- C6 (amended): `validate` returns `NotASelect` for SQL not starting with
`SELECT` (case-insensitive, ignoring surrounding whitespace) provided none of
the earlier substring checks fires — no dangerous keyword, no system-table
pattern, no `COPY`, no dangerous-function pattern; the surfaced error is the
first violation in check order. -/
theorem c6_amended_thm (sql : String)
    (hsel : startsWithStr (normalizeSQL sql) ("SELECT") = false)
    (hkw : ∀ k ∈ dangerousKeywords, containsStr (normalizeSQL sql) k = false)
    (hsys : ∀ t ∈ systemTables, containsStr (normalizeSQL sql) t = false)
    (hcopy : containsStr (normalizeSQL sql) ("COPY") = false)
    (hfn : ∀ f ∈ dangerousFunctions, containsStr (normalizeSQL sql) f = false) :
    validateQuerySafety sql = .error .notASelect := by
  have h1 : dangerousKeywords.find?
      (fun k => containsStr (normalizeSQL sql) k) = none :=
    List.find?_eq_none.mpr (fun k hk => by simp [hkw k hk])
  have h2 : systemTables.find?
      (fun t => containsStr (normalizeSQL sql) t) = none :=
    List.find?_eq_none.mpr (fun t ht => by simp [hsys t ht])
  have h4 : dangerousFunctions.find?
      (fun f => containsStr (normalizeSQL sql) f) = none :=
    List.find?_eq_none.mpr (fun f hf => by simp [hfn f hf])
  have h3 : containsStr (normalizeSQL sql) ("\\COPY") = false := by
    cases h : containsStr (normalizeSQL sql) ("\\COPY") with
    | false => rfl
    | true =>
      exfalso
      have hd : ("\\COPY").data = '\\' :: ("COPY").data := by decide
      have hx : containsL (normalizeSQL sql).data ('\\' :: ("COPY").data) = true := by
        have h' : containsL (normalizeSQL sql).data (("\\COPY").data) = true := h
        rwa [hd] at h'
      have hc : containsStr (normalizeSQL sql) ("COPY") = true :=
        containsL_of_cons _ _ _ hx
      rw [hcopy] at hc
      cases hc
  simp [validateQuerySafety, h1, h2, h3, h4, hcopy, hsel]

/-- Witness for the amended C6: `EXPLAIN SELECT 1` trips none of the earlier
checks and is rejected as `NotASelect`. -/
theorem c6_amended_witness :
    validateQuerySafety ("EXPLAIN SELECT 1") = .error .notASelect :=
  c6_amended_thm ("EXPLAIN SELECT 1") (by decide) (by decide) (by decide)
    (by decide) (by decide)

/-- C7: any SQL whose uppercased text contains one of the eleven dangerous
keywords as a substring — word boundaries notwithstanding — is rejected with
`DangerousOperation` (the keyword check runs first, so no other error kind can
pre-empt it), while the clean `SELECT * FROM customers` is accepted. -/
theorem c7_dangerous_operation :
    (∀ (sql k : String), k ∈ dangerousKeywords →
      containsStr (upStr sql) k = true →
      ∃ r, validateQuerySafety sql = .error (.dangerousOperation r))
    ∧ validateQuerySafety ("SELECT * FROM customers") = .ok () := by
  constructor
  · intro sql k hk hc
    obtain ⟨hne, hws⟩ := dangerousKeywords_wsFree k hk
    have h2 : containsL (trimL (upperL sql.data)) k.data = true :=
      containsL_trimL k.data hne hws (upperL sql.data) hc
    have h3 : containsStr (normalizeSQL sql) k = true := h2
    obtain ⟨y, hfind, _⟩ := find?_some_of_mem
      (fun t => containsStr (normalizeSQL sql) t) dangerousKeywords k hk h3
    exact ⟨y, by simp [validateQuerySafety, hfind]⟩
  · decide

/-- Witness for C7 at a concrete keyword-bearing input. -/
theorem c7_witness :
    ∃ r, validateQuerySafety ("DELETE FROM orders")
      = .error (.dangerousOperation r) :=
  c7_dangerous_operation.1 ("DELETE FROM orders") ("DELETE") (by decide)
    (by decide)

/-- C8: `executeQuery` is total and never throws — for every formatter
behavior, driver behavior, input and options, it returns a result object: when
the `try` body fails (rejected SQL, timeout or driver error) the result has
`success:false` with the error's message and the elapsed time; when it succeeds
the result has `success:true`. -/
theorem c8_no_throw (cfg : ExecConfig) (fmt : String → Except Unit String)
    (beh : DriverBehavior) (sql : String) (opts : ExecOptions) (elapsed : Nat) :
    (∃ m, (executeQueryTry cfg fmt beh sql opts).1 = .error m
      ∧ (executeQuery cfg fmt beh sql opts elapsed).1.success = false
      ∧ (executeQuery cfg fmt beh sql opts elapsed).1.error = some m
      ∧ (executeQuery cfg fmt beh sql opts elapsed).1.executionTime = elapsed)
    ∨ (∃ p, (executeQueryTry cfg fmt beh sql opts).1 = .ok p
      ∧ (executeQuery cfg fmt beh sql opts elapsed).1.success = true
      ∧ (executeQuery cfg fmt beh sql opts elapsed).1.error = none
      ∧ (executeQuery cfg fmt beh sql opts elapsed).1.executionTime = elapsed) := by
  rcases hq : executeQueryTry cfg fmt beh sql opts with ⟨res, log⟩
  cases res with
  | error m =>
    left
    exact ⟨m, by simp [hq], by simp [executeQuery, hq], by simp [executeQuery, hq],
      by simp [executeQuery, hq]⟩
  | ok p =>
    rcases p with ⟨fsql, r⟩
    right
    exact ⟨(fsql, r), by simp [hq], by simp [executeQuery, hq],
      by simp [executeQuery, hq], by simp [executeQuery, hq]⟩

/-- C9 (counterexample): the pretty-printed SQL — not the caller's original
string — is what `executeQuery` hands to the driver: with a formatter that
rewrites `select 1` to `SELECT\n  1`, the submitted statement is neither the
original nor the original with the documented LIMIT appended. -/
theorem c9_counterexample :
    (executeQuery defaultConfig (fun _ => .ok ("SELECT\n  1")) okDriver
        ("select 1") {} 5).2.queries
      = [setTimeoutSQL defaultConfig, ("SELECT\n  1 LIMIT 10000")]
    ∧ ("SELECT\n  1 LIMIT 10000") ≠ ("select 1")
    ∧ ("SELECT\n  1 LIMIT 10000")
        ≠ ("select 1") ++ (" LIMIT ") ++ toString defaultConfig.maxResultRows := by
  decide

/-- C9 (amended): every statement `executeQuery` submits to the engine is
either the `SET statement_timeout` or the *formatted* SQL with the documented
LIMIT adjustment — `formatSQL fmt sql`, not the raw `sql`; only when the
formatter throws does `formatSQL` fall back to the caller's original text. -/
theorem c9_amended_thm (cfg : ExecConfig) (fmt : String → Except Unit String)
    (beh : DriverBehavior) (sql : String) (opts : ExecOptions) (elapsed : Nat) :
    (∀ q ∈ (executeQuery cfg fmt beh sql opts elapsed).2.queries,
      q = setTimeoutSQL cfg ∨ q = finalSQL cfg (formatSQL fmt sql))
    ∧ (fmt sql = .error () → formatSQL fmt sql = sql) := by
  constructor
  · intro q hq
    rcases executeQuery_log cfg fmt beh sql opts elapsed with h | h
    · rw [h] at hq
      cases hq
    · rw [h] at hq
      rcases executeWithTimeout_queries cfg beh (formatSQL fmt sql) opts
        with h1 | h1 | h1 <;> rw [h1] at hq <;> simp at hq
      · exact Or.inl hq
      · rcases hq with hq | hq
        · exact Or.inl hq
        · exact Or.inr hq
  · intro h
    simp [formatSQL, h]

/-- Witness for the amended C9: with a throwing formatter the original text
(plus the appended LIMIT) is what reaches the driver. -/
theorem c9_amended_witness :
    ("select 1 LIMIT 10000") = setTimeoutSQL defaultConfig
    ∨ ("select 1 LIMIT 10000")
        = finalSQL defaultConfig (formatSQL failFormatter ("select 1")) :=
  (c9_amended_thm defaultConfig failFormatter okDriver ("select 1") {} 5).1
    ("select 1 LIMIT 10000") (by decide)

/-- C10: the no-LIMIT-injection decision is a pure substring test on the
uppercased text: whenever `LIMIT` occurs anywhere — inside an identifier or a
string literal included — the statement is executed unmodified, with no
appended row bound. -/
theorem c10_limit_substring (cfg : ExecConfig) (beh : DriverBehavior)
    (sql : String) (opts : ExecOptions)
    (h : containsStr (upStr sql) ("LIMIT") = true) :
    finalSQL cfg sql = sql
    ∧ ((executeWithTimeout cfg beh sql opts).2.queries = [] ∨
       (executeWithTimeout cfg beh sql opts).2.queries = [setTimeoutSQL cfg] ∨
       (executeWithTimeout cfg beh sql opts).2.queries
         = [setTimeoutSQL cfg, sql]) := by
  have hfin : finalSQL cfg sql = sql := by
    simp [finalSQL, h]
  refine ⟨hfin, ?_⟩
  have := executeWithTimeout_queries cfg beh sql opts
  rwa [hfin] at this

/-- Witness for C10: a column literally named `limit_value` suppresses the
injection. -/
theorem c10_witness :
    containsStr (upStr ("SELECT limit_value FROM t")) ("LIMIT") = true
    ∧ finalSQL defaultConfig ("SELECT limit_value FROM t")
        = ("SELECT limit_value FROM t") :=
  ⟨by decide, (c10_limit_substring defaultConfig okDriver
    ("SELECT limit_value FROM t") {} (by decide)).1⟩

end NLQ
